import Mathlib

/-!
Shallow embedding of the data-access layer of the agendaai appointment-booking
application, together with proofs about the slot lifecycle, the bulk slot
generator and the batch create helpers.

The repository ships two implementations of the same data-access module:
* `Api0` embeds the module in `src/unnamed/part_000` (boolean / result-object
  error convention, slot-first `createAppointment`, soft deletes);
* `Api1` embeds the module in `src/unnamed/part_001` (throwing convention,
  insert-first `createAppointment`, physical deletes).

The hosted store is modelled as explicit table state (lists of rows) threaded
through each operation.  Store failures (network errors, constraint
violations) are modelled by explicit failure-injection parameters: each store
round-trip performed by a function has a corresponding boolean (or error
option) telling whether the store reports an error on that call.  Timestamps
are integer milliseconds (`Nat`), which is exactly the precision of the
JavaScript `Date` values the code manipulates; day boundaries and `setHours`
are expressed by arithmetic on those milliseconds.
-/

/-- Error shape reported by the hosted store; the application code only ever
inspects the `code` field (for example `23505` or `PGRST116`). -/
structure StoreErr where
  code : String
deriving DecidableEq

/-- Milliseconds in one calendar day. -/
def msPerDay : Nat := 86400000

/-- Milliseconds in one hour. -/
def msPerHour : Nat := 3600000

/-- Milliseconds in one minute. -/
def msPerMinute : Nat := 60000

/-- Calendar-day index of a millisecond timestamp. -/
def dayIndex (t : Nat) : Nat := t / msPerDay

/-- Midnight (start of day) of the day containing `t`, as in
`date.setHours(0,0,0,0)`. -/
def dayStart (t : Nat) : Nat := dayIndex t * msPerDay

/-- JavaScript `Date.getDay()`: 0 = Sunday .. 6 = Saturday.  Day 0 of the
epoch (1970-01-01) is a Thursday, i.e. weekday 4. -/
def jsGetDay (t : Nat) : Nat := (dayIndex t + 4) % 7

/-- JavaScript `setHours(h, m, 0, 0)` applied to the day containing `t`. -/
def setHMS (t h m : Nat) : Nat := dayStart t + h * msPerHour + m * msPerMinute

/-- Row of the `available_slots` table. -/
structure Slot where
  id : Nat
  professional_id : Nat
  start_time : Nat
  end_time : Nat
  is_available : Bool
deriving DecidableEq

/-- Appointment status values. -/
inductive ApptStatus where
  | confirmed
  | cancelled
  | completed
deriving DecidableEq

/-- Row of the `appointments` table. -/
structure Appointment where
  id : Nat
  professional_id : Nat
  service_id : Nat
  slot_id : Nat
  client_name : String
  client_phone : String
  status : ApptStatus
deriving DecidableEq

/-- The two tables touched by the appointment lifecycle. -/
structure BookingDB where
  slots : List Slot
  appointments : List Appointment
deriving DecidableEq

/-- Store update `available_slots.update({is_available: b}).eq('id', slotId)`:
every row whose id matches is patched, everything else is untouched. -/
def setSlotAvail (slots : List Slot) (slotId : Nat) (b : Bool) : List Slot :=
  slots.map fun s => if s.id = slotId then { s with is_available := b } else s

/-- Event trace of the store round-trips a function performs, in order.  Used
to state in which order the slot update and the appointment insert happen. -/
inductive StoreEvent where
  | updateSlot (slotId : Nat) (avail : Bool) (ok : Bool)
  | insertAppt (apptId : Nat) (ok : Bool)
deriving DecidableEq

/-- Checks that in a trace every appointment insert is preceded by an earlier
successful update that set the slot `slotId` unavailable.  `seen` records
whether such an update has already occurred. -/
def insertAfterSlotOff (slotId : Nat) : List StoreEvent → Bool → Bool
  | [], _ => true
  | StoreEvent.updateSlot s false true :: rest, seen =>
      insertAfterSlotOff slotId rest (seen || s == slotId)
  | StoreEvent.updateSlot _ _ _ :: rest, seen => insertAfterSlotOff slotId rest seen
  | StoreEvent.insertAppt _ _ :: rest, seen => seen && insertAfterSlotOff slotId rest seen

/-- Shape of the value returned by both `createAppointment` variants. -/
structure CreateApptResult where
  success : Bool
  appointmentId : Option Nat
deriving DecidableEq

/-- Row of the `professionals` table. -/
structure Professional where
  id : Nat
  name : String
  phone : Option String
  bio : Option String
  photo_url : Option String
  active : Bool
  user_id : Option Nat
deriving DecidableEq

/-- Row of the `services` table. -/
structure Service where
  id : Nat
  name : String
  description : String
  duration : Nat
  price : Nat
  active : Bool
deriving DecidableEq

/-- Input record for `createProfessional` (part_000): a `Professional` without
an id and with every field other than `name` possibly absent. -/
structure ProfessionalInput where
  name : String
  phone : Option String
  bio : Option String
  photo_url : Option String
  active : Option Bool
  user_id : Option Nat
deriving DecidableEq

/-- JavaScript `x || null` on an optional string: an absent or empty (falsy)
string becomes null. -/
def jsOrNull (o : Option String) : Option String :=
  match o with
  | some s => if s = "" then none else some s
  | none => none

/-- JavaScript `x || null` on an optional numeric id: absent or `0` (falsy)
becomes null. -/
def jsOrNullNat (o : Option Nat) : Option Nat :=
  match o with
  | some 0 => none
  | some n => some n
  | none => none

/-- Shape of the `{ success, id }` result of the part_000 create helpers. -/
structure CreateIdResult where
  success : Bool
  id : Option Nat
deriving DecidableEq

/-- Store insert into `professional_services`, which carries a uniqueness
constraint on the `(professional_id, service_id)` pair: inserting an existing
pair reports error code `23505` and leaves the table unchanged; otherwise the
insert succeeds unless a network failure is injected. -/
def insertProfService (db : List (Nat × Nat)) (netFail : Bool)
    (professionalId serviceId : Nat) : Except StoreErr (List (Nat × Nat)) :=
  if (professionalId, serviceId) ∈ db then Except.error { code := "23505" }
  else if netFail then Except.error { code := "NET" }
  else Except.ok (db ++ [(professionalId, serviceId)])

/-- PostgREST `.single()` on a list of appointment rows: exactly one row is
returned, otherwise the store reports error code `PGRST116`. -/
def singleRowAppt : List Appointment → Except StoreErr Appointment
  | [a] => Except.ok a
  | _ => Except.error { code := "PGRST116" }

/-- Ordering of slots by their raw start timestamp, used to model the
`.order('start_time', { ascending: true })` query clause. -/
def slotLe (a b : Slot) : Prop := a.start_time ≤ b.start_time

instance : DecidableRel slotLe := fun a b =>
  inferInstanceAs (Decidable (a.start_time ≤ b.start_time))

instance : IsTotal Slot slotLe := ⟨fun a b => Nat.le_total a.start_time b.start_time⟩

instance : IsTrans Slot slotLe := ⟨fun _ _ _ h1 h2 => Nat.le_trans h1 h2⟩

/-- The store's `order by start_time ascending` on a filtered row set. -/
def orderByStartTime (l : List Slot) : List Slot := List.insertionSort slotLe l

namespace Api0

/-- Failure injection for the three store calls of the part_000
`createAppointment`: the slot-locking update, the appointment insert, and the
compensating slot update. -/
structure CreateApptFail where
  slotFail : Bool
  insertFail : Bool
  revertFail : Bool
deriving DecidableEq

/-- part_000 `createAppointment`: first set the slot unavailable, then insert
the `confirmed` appointment; on insert error, issue a compensating update that
sets the slot available again (its own error is only logged) and return
`success: false`.  Returns the result, the final store state and the trace of
store calls. -/
def createAppointment (db : BookingDB) (f : CreateApptFail)
    (newId professionalId serviceId slotId : Nat)
    (clientName clientPhone : String) :
    CreateApptResult × BookingDB × List StoreEvent :=
  if f.slotFail then
    ({ success := false, appointmentId := none }, db,
      [StoreEvent.updateSlot slotId false false])
  else
    let db1 : BookingDB := { db with slots := setSlotAvail db.slots slotId false }
    if f.insertFail then
      if f.revertFail then
        ({ success := false, appointmentId := none }, db1,
          [StoreEvent.updateSlot slotId false true, StoreEvent.insertAppt newId false,
            StoreEvent.updateSlot slotId true false])
      else
        ({ success := false, appointmentId := none },
          { db1 with slots := setSlotAvail db1.slots slotId true },
          [StoreEvent.updateSlot slotId false true, StoreEvent.insertAppt newId false,
            StoreEvent.updateSlot slotId true true])
    else
      ({ success := true, appointmentId := some newId },
        { db1 with appointments := db1.appointments ++
          [{ id := newId, professional_id := professionalId, service_id := serviceId,
             slot_id := slotId, client_name := clientName, client_phone := clientPhone,
             status := ApptStatus.confirmed }] },
        [StoreEvent.updateSlot slotId false true, StoreEvent.insertAppt newId true])

/-- part_000 `updateAppointmentStatus`: a single update of the status column of
the matching appointment rows; no other table is touched.  Returns `false` on a
store error, `true` otherwise. -/
def updateAppointmentStatus (db : BookingDB) (updateFail : Bool) (id : Nat)
    (status : ApptStatus) : Bool × BookingDB :=
  if updateFail then (false, db)
  else
    (true, { db with appointments := db.appointments.map fun a =>
      if a.id = id then { a with status := status } else a })

/-- part_000 `fetchAvailableSlots`: midnight of the requested day and midnight
of the next day bound a half-open `start_time` window; rows are filtered on
professional, availability and the window, then ordered by `start_time`. -/
def fetchAvailableSlots (db : List Slot) (queryFail : Bool)
    (professionalId : Nat) (date : Nat) : Except StoreErr (List Slot) :=
  if queryFail then Except.error { code := "NET" }
  else
    let selectedDate := dayStart date
    let nextDay := selectedDate + msPerDay
    Except.ok (orderByStartTime (db.filter fun s =>
      s.professional_id == professionalId && s.is_available &&
        decide (selectedDate ≤ s.start_time) && decide (s.start_time < nextDay)))

/-- part_000 `createProfessional`: absent optional fields become null (via
JavaScript `|| null`), an absent `active` defaults to `true`, and the result
carries the id of the inserted row. -/
def createProfessional (db : List Professional) (insertFail : Bool) (newId : Nat)
    (input : ProfessionalInput) : CreateIdResult × List Professional :=
  if insertFail then ({ success := false, id := none }, db)
  else
    let row : Professional :=
      { id := newId, name := input.name, phone := jsOrNull input.phone,
        bio := jsOrNull input.bio, photo_url := jsOrNull input.photo_url,
        active := input.active.getD true, user_id := jsOrNullNat input.user_id }
    ({ success := true, id := some newId }, db ++ [row])

/-- part_000 `deleteProfessional`: an update setting `active := false` on the
matching rows; nothing is removed from the table. -/
def deleteProfessional (db : List Professional) (updateFail : Bool) (id : Nat) :
    Bool × List Professional :=
  if updateFail then (false, db)
  else (true, db.map fun p => if p.id = id then { p with active := false } else p)

/-- part_000 `deleteService`: same soft delete for services. -/
def deleteService (db : List Service) (updateFail : Bool) (id : Nat) :
    Bool × List Service :=
  if updateFail then (false, db)
  else (true, db.map fun s => if s.id = id then { s with active := false } else s)

/-- part_000 `fetchProfessionals`: the active-only listing
(`.eq('active', true)`). -/
def fetchProfessionals (db : List Professional) (queryFail : Option StoreErr) :
    Except StoreErr (List Professional) :=
  match queryFail with
  | some e => Except.error e
  | none => Except.ok (db.filter fun p => p.active)

/-- part_000 `fetchServices`: the active-only listing. -/
def fetchServices (db : List Service) (queryFail : Option StoreErr) :
    Except StoreErr (List Service) :=
  match queryFail with
  | some e => Except.error e
  | none => Except.ok (db.filter fun s => s.active)

/-- part_000 `associateProfessionalService`: insert the join row; a store error
with code `23505` (uniqueness violation) is answered with `true` as if the
insert had succeeded, any other error yields `false`. -/
def associateProfessionalService (db : List (Nat × Nat)) (netFail : Bool)
    (professionalId serviceId : Nat) : Bool × List (Nat × Nat) :=
  match insertProfService db netFail professionalId serviceId with
  | Except.error e => if e.code = "23505" then (true, db) else (false, db)
  | Except.ok db2 => (true, db2)

end Api0

/-- Modelled from the spec: no point lookup for professionals exists under
`src` (spec section 4.1, "fetch-by-id: returns the single matching record or a
not-found signal").  Modelled as the first record carrying the id, if any. -/
def getProfessionalById (db : List Professional) (id : Nat) : Option Professional :=
  db.find? fun p => p.id == id

/-- Modelled from the spec: the corresponding point lookup for services. -/
def getServiceById (db : List Service) (id : Nat) : Option Service :=
  db.find? fun s => s.id == id

namespace Api1

/-- Failure injection for the two store calls of the part_001
`createAppointment`: the appointment insert and the slot update. -/
structure CreateApptFail where
  insertFail : Bool
  slotFail : Bool
deriving DecidableEq

/-- part_001 `createAppointment`: first insert the `confirmed` appointment,
then set the slot unavailable; any error is caught and turned into
`{ success := false }` with no appointment id (the function itself never
throws).  A slot-update failure after a successful insert leaves the inserted
appointment in place. -/
def createAppointment (db : BookingDB) (f : CreateApptFail)
    (newId professionalId serviceId slotId : Nat)
    (clientName clientPhone : String) :
    CreateApptResult × BookingDB × List StoreEvent :=
  if f.insertFail then
    ({ success := false, appointmentId := none }, db, [StoreEvent.insertAppt newId false])
  else
    let db1 : BookingDB := { db with appointments := db.appointments ++
      [{ id := newId, professional_id := professionalId, service_id := serviceId,
         slot_id := slotId, client_name := clientName, client_phone := clientPhone,
         status := ApptStatus.confirmed }] }
    if f.slotFail then
      ({ success := false, appointmentId := none }, db1,
        [StoreEvent.insertAppt newId true, StoreEvent.updateSlot slotId false false])
    else
      ({ success := true, appointmentId := some newId },
        { db1 with slots := setSlotAvail db1.slots slotId false },
        [StoreEvent.insertAppt newId true, StoreEvent.updateSlot slotId false true])

/-- Failure injection for the three store calls of the part_001
`updateAppointmentStatus`: the point fetch, the status update, and the slot
update. -/
structure UpdateStatusFail where
  fetchFail : Bool
  updateFail : Bool
  slotFail : Bool
deriving DecidableEq

/-- part_001 `updateAppointmentStatus`: read the appointment's `slot_id` and
current status with `.single()`, write the new status, and if the new status
is `cancelled` while the previous one was not, set the referenced slot
available again.  Every store error is re-thrown. -/
def updateAppointmentStatus (db : BookingDB) (f : UpdateStatusFail) (id : Nat)
    (status : ApptStatus) : Except StoreErr BookingDB :=
  let fetched : Except StoreErr Appointment :=
    if f.fetchFail then Except.error { code := "NET" }
    else singleRowAppt (db.appointments.filter fun a => a.id == id)
  match fetched with
  | Except.error e => Except.error e
  | Except.ok appt =>
    if f.updateFail then Except.error { code := "NET" }
    else
      let db1 : BookingDB := { db with appointments := db.appointments.map fun a =>
        if a.id = id then { a with status := status } else a }
      if status = ApptStatus.cancelled ∧ appt.status ≠ ApptStatus.cancelled then
        if f.slotFail then Except.error { code := "NET" }
        else Except.ok { db1 with slots := setSlotAvail db1.slots appt.slot_id true }
      else Except.ok db1

/-- part_001 `fetchAvailableSlots`: the window is `[midnight, 23:59:59.999]`
of the requested day (a closed interval, `gte`/`lte`); rows are filtered on
professional, the window and availability, then ordered by `start_time`. -/
def fetchAvailableSlots (db : List Slot) (queryFail : Bool)
    (professionalId : Nat) (date : Nat) : Except StoreErr (List Slot) :=
  if queryFail then Except.error { code := "NET" }
  else
    let startOfDay := dayStart date
    let endOfDay := dayStart date + (msPerDay - 1)
    Except.ok (orderByStartTime (db.filter fun s =>
      s.professional_id == professionalId && decide (startOfDay ≤ s.start_time) &&
        decide (s.start_time ≤ endOfDay) && s.is_available))

/-- part_001 `deleteProfessional`: a physical `.delete()` of the matching
rows. -/
def deleteProfessional (db : List Professional) (deleteFail : Bool) (id : Nat) :
    Except StoreErr (List Professional) :=
  if deleteFail then Except.error { code := "NET" }
  else Except.ok (db.filter fun p => p.id != id)

/-- part_001 `deleteService`: a physical `.delete()` of the matching rows. -/
def deleteService (db : List Service) (deleteFail : Bool) (id : Nat) :
    Except StoreErr (List Service) :=
  if deleteFail then Except.error { code := "NET" }
  else Except.ok (db.filter fun s => s.id != id)

/-- part_001 `fetchProfessionals`: every row, ordered by name; there is no
filter on the `active` flag. -/
def fetchProfessionals (db : List Professional) (queryFail : Option StoreErr) :
    Except StoreErr (List Professional) :=
  match queryFail with
  | some e => Except.error e
  | none => Except.ok db

/-- part_001 `associateProfessionalService`: insert the join row and re-throw
any store error, uniqueness violations included. -/
def associateProfessionalService (db : List (Nat × Nat)) (netFail : Bool)
    (professionalId serviceId : Nat) : Except StoreErr (List (Nat × Nat)) :=
  match insertProfService db netFail professionalId serviceId with
  | Except.error e => Except.error e
  | Except.ok db2 => Except.ok db2

/-- One `{startHour, startMinute, endHour, endMinute}` tuple of the bulk slot
generator, after `parseInt` of its string fields. -/
structure TimeRange where
  startHour : Nat
  startMinute : Nat
  endHour : Nat
  endMinute : Nat
deriving DecidableEq

/-- A slot row as assembled by the bulk generator, before the store assigns an
id. -/
structure SlotRow where
  professional_id : Nat
  start_time : Nat
  end_time : Nat
  is_available : Bool
deriving DecidableEq

/-- The rows the inner loop of `createAvailableSlotsBulk` pushes for one day:
one per time range, with start and end obtained by `setHours` on that day. -/
def slotsForDay (professionalId currentDate : Nat) (timeRanges : List TimeRange) :
    List SlotRow :=
  timeRanges.map fun r =>
    { professional_id := professionalId,
      start_time := setHMS currentDate r.startHour r.startMinute,
      end_time := setHMS currentDate r.endHour r.endMinute,
      is_available := true }

/-- The `while (currentDate <= endDate)` loop of `createAvailableSlotsBulk`:
if the current day's weekday is selected, push one row per time range, then
advance `currentDate` by one day. -/
def generateSlots (professionalId currentDate endDate : Nat)
    (selectedDays : List Nat) (timeRanges : List TimeRange) : List SlotRow :=
  if currentDate ≤ endDate then
    (if jsGetDay currentDate ∈ selectedDays then
        slotsForDay professionalId currentDate timeRanges
      else []) ++
      generateSlots professionalId (currentDate + msPerDay) endDate selectedDays timeRanges
  else []
termination_by endDate + msPerDay - currentDate
decreasing_by unfold msPerDay; omega

/-- The `{ count }` result of `createAvailableSlotsBulk`. -/
structure BulkResult where
  count : Nat
deriving DecidableEq

/-- part_001 `createAvailableSlotsBulk`: generate the rows with
`generateSlots`; an empty set is answered with `count 0` without touching the
store; otherwise a single bulk insert is issued and the number of inserted
rows is returned. -/
def createAvailableSlotsBulk (db : List SlotRow) (insertFail : Bool)
    (professionalId startDate endDate : Nat) (selectedDays : List Nat)
    (timeRanges : List TimeRange) : Except StoreErr (BulkResult × List SlotRow) :=
  let slots := generateSlots professionalId startDate endDate selectedDays timeRanges
  if slots.length = 0 then Except.ok ({ count := 0 }, db)
  else if insertFail then Except.error { code := "NET" }
  else Except.ok ({ count := slots.length }, db ++ slots)

/-- Input row for `createWebhooks`: a partial webhook configuration. -/
structure WebhookInput where
  url : Option String
  event_type : Option String
deriving DecidableEq

/-- Input row for `createCompanies`: a partial company. -/
structure CompanyInput where
  name : Option String
  slug : Option String
deriving DecidableEq

/-- Input row for `createUsers`: a partial user. -/
structure UserInput where
  email : Option String
  name : Option String
  role : Option String
deriving DecidableEq

/-- JavaScript truthiness of an optional string field: absent and empty
strings are falsy. -/
def truthyStr : Option String → Bool
  | none => false
  | some s => if s = "" then false else true

/-- part_001 `createWebhooks`: keep the inputs carrying a truthy `url`; throw
`No valid webhooks to create` when none remain, otherwise bulk-insert the kept
rows and return them. -/
def createWebhooks (db : List WebhookInput) (insertFail : Bool)
    (webhooks : List WebhookInput) :
    Except StoreErr (List WebhookInput × List WebhookInput) :=
  let validWebhooks := webhooks.filter fun w => truthyStr w.url
  if validWebhooks.length = 0 then Except.error { code := "No valid webhooks to create" }
  else if insertFail then Except.error { code := "NET" }
  else Except.ok (validWebhooks, db ++ validWebhooks)

/-- part_001 `createCompanies`: keep the inputs carrying truthy `name` and
`slug`; throw `No valid companies to create` when none remain. -/
def createCompanies (db : List CompanyInput) (insertFail : Bool)
    (companies : List CompanyInput) :
    Except StoreErr (List CompanyInput × List CompanyInput) :=
  let validCompanies := companies.filter fun c => truthyStr c.name && truthyStr c.slug
  if validCompanies.length = 0 then Except.error { code := "No valid companies to create" }
  else if insertFail then Except.error { code := "NET" }
  else Except.ok (validCompanies, db ++ validCompanies)

/-- part_001 `createUsers`: keep the inputs carrying truthy `email`, `name`
and `role`; throw `No valid users to create` when none remain. -/
def createUsers (db : List UserInput) (insertFail : Bool)
    (users : List UserInput) :
    Except StoreErr (List UserInput × List UserInput) :=
  let validUsers := users.filter fun u =>
    truthyStr u.email && truthyStr u.name && truthyStr u.role
  if validUsers.length = 0 then Except.error { code := "No valid users to create" }
  else if insertFail then Except.error { code := "NET" }
  else Except.ok (validUsers, db ++ validUsers)

/-- Row of the `users` table. -/
structure UserRow where
  id : Nat
  name : String
  email : String
  role : String
  auth_id : Nat
  tipo_usuario : String
deriving DecidableEq

/-- PostgREST `.single()` on a list of user rows: exactly one row is returned,
otherwise the store reports error code `PGRST116`. -/
def singleRowUser : List UserRow → Except StoreErr UserRow
  | [r] => Except.ok r
  | _ => Except.error { code := "PGRST116" }

/-- part_001 `getUserByAuth`: point lookup of the user by `auth_id` with
`.single()`.  The zero-row error `PGRST116` is suppressed into `none`; any
other store error is re-thrown. -/
def getUserByAuth (db : List UserRow) (queryFail : Option StoreErr)
    (authId : Nat) : Except StoreErr (Option UserRow) :=
  let fetched : Except StoreErr UserRow :=
    match queryFail with
    | some e => Except.error e
    | none => singleRowUser (db.filter fun u => u.auth_id == authId)
  match fetched with
  | Except.error e => if e.code = "PGRST116" then Except.ok none else Except.error e
  | Except.ok d => Except.ok (some d)

end Api1

/-- Calendar-day indices of the claim: every day between `d1` and `d2`
inclusive. -/
def claimCalendarDays (d1 d2 : Nat) : List Nat :=
  if d1 ≤ d2 then d1 :: claimCalendarDays (d1 + 1) d2 else []
termination_by d2 + 1 - d1

/-- The rows the claim expects for one calendar day `d`: one per time range,
with start and end obtained by applying the tuple's hours and minutes to that
day. -/
def claimRowsForDay (professionalId d : Nat) (timeRanges : List Api1.TimeRange) :
    List Api1.SlotRow :=
  timeRanges.map fun r =>
    { professional_id := professionalId,
      start_time := d * msPerDay + r.startHour * msPerHour + r.startMinute * msPerMinute,
      end_time := d * msPerDay + r.endHour * msPerHour + r.endMinute * msPerMinute,
      is_available := true }

/-- The full row set the claim describes for `createAvailableSlotsBulk`: one
row per calendar day in `[startDate, endDate]` inclusive whose weekday is
selected, times one row per time range. -/
def claimBulkRows (professionalId startDate endDate : Nat)
    (selectedDays : List Nat) (timeRanges : List Api1.TimeRange) : List Api1.SlotRow :=
  ((claimCalendarDays (dayIndex startDate) (dayIndex endDate)).map fun d =>
    if (d + 4) % 7 ∈ selectedDays then claimRowsForDay professionalId d timeRanges
    else []).flatten

/-- After `setSlotAvail slots slotId b`, every row carrying the id has its
availability equal to `b`. -/
theorem setSlotAvail_avail (slots : List Slot) (slotId : Nat) (b : Bool) :
    ∀ s ∈ setSlotAvail slots slotId b, s.id = slotId → s.is_available = b := by
  intro s hs hid
  rcases List.mem_map.mp hs with ⟨x, _, rfl⟩
  by_cases h : x.id = slotId
  · simp [h]
  · simp [h] at hid ⊢

/-- A soft delete keeps the point lookup working: if a record with the id was
the first match before, the deactivated copy of the same record is the first
match afterwards.  Generic in the record type. -/
theorem find_softDelete {α : Type} (getId : α → Nat) (deact : α → α)
    (hid : ∀ p, getId (deact p) = getId p) :
    ∀ (db : List α) (id : Nat) (p : α),
      db.find? (fun q => getId q == id) = some p →
      (db.map fun q => if getId q = id then deact q else q).find?
          (fun q => getId q == id) = some (deact p) := by
  intro db id p h
  induction db with
  | nil => simp at h
  | cons a l ih =>
    by_cases ha : getId a = id
    · rw [List.find?_cons_of_pos _ (by simp [ha])] at h
      have hp : a = p := by injection h
      subst hp
      simp only [List.map_cons, if_pos ha]
      exact List.find?_cons_of_pos _ (by simp [hid, ha])
    · rw [List.find?_cons_of_neg _ (by simp [ha])] at h
      simp only [List.map_cons, if_neg ha]
      rw [List.find?_cons_of_neg _ (by simp [ha])]
      exact ih h

/-- After a soft delete, every record carrying the deleted id is inactive.
Generic in the record type. -/
theorem softDelete_inactive {α : Type} (getId : α → Nat) (isActive : α → Bool)
    (deact : α → α) (hact : ∀ p, isActive (deact p) = false) (db : List α) (id : Nat) :
    ∀ q ∈ db.map (fun q => if getId q = id then deact q else q),
      getId q = id → isActive q = false := by
  intro q hq hqid
  rcases List.mem_map.mp hq with ⟨x, _, rfl⟩
  by_cases h : getId x = id
  · simp [h, hact]
  · simp [h] at hqid ⊢

/-- C5: counterexample.  The part_001 `associateProfessionalService` re-throws
the uniqueness violation: associating a pair whose join row already exists
fails with store error `23505` instead of being treated as success, so the
claim is false for this implementation. -/
theorem c5_counterexample :
    Api1.associateProfessionalService [(1, 2)] false 1 2 =
      Except.error { code := "23505" } := by
  rfl

/-- C5 (amended): in the part_000 implementation, associating a pair whose
join row already exists is answered with success (the `23505` uniqueness
violation is swallowed), so associating the same pair twice succeeds both
times and leaves exactly one join row. -/
theorem c5_associate_idempotent_api0 (db : List (Nat × Nat))
    (professionalId serviceId : Nat) (hnew : (professionalId, serviceId) ∉ db) :
    Api0.associateProfessionalService db false professionalId serviceId =
      (true, db ++ [(professionalId, serviceId)]) ∧
    Api0.associateProfessionalService (db ++ [(professionalId, serviceId)]) false
        professionalId serviceId =
      (true, db ++ [(professionalId, serviceId)]) ∧
    ((db ++ [(professionalId, serviceId)]).filter
        (fun r => r == (professionalId, serviceId))).length = 1 := by
  refine ⟨?_, ?_, ?_⟩
  · simp [Api0.associateProfessionalService, insertProfService, hnew]
  · simp [Api0.associateProfessionalService, insertProfService]
  · rw [List.filter_append]
    have hdb : db.filter (fun r => r == (professionalId, serviceId)) = [] := by
      rw [List.filter_eq_nil_iff]
      intro a ha
      simp only [beq_iff_eq]
      intro hcontra
      exact hnew (hcontra ▸ ha)
    simp [hdb]

/-- C5 witness: a concrete run of the amended theorem on the empty join
table. -/
theorem c5_witness :
    Api0.associateProfessionalService [] false 1 2 = (true, [(1, 2)]) ∧
    Api0.associateProfessionalService [(1, 2)] false 1 2 = (true, [(1, 2)]) ∧
    ([(1, 2)].filter (fun r => r == (1, 2))).length = 1 := by
  have h := c5_associate_idempotent_api0 [] 1 2 (by simp)
  simpa using h

/-- C6: counterexample.  The part_001 `deleteProfessional` issues a physical
`.delete()`: the record is removed from the table and is no longer fetchable
by id, so the claim "the delete operation is a soft delete, the record is
never physically removed" is false for this implementation. -/
theorem c6_counterexample :
    Api1.deleteProfessional
        [{ id := 1, name := "ana", phone := none, bio := none, photo_url := none,
           active := true, user_id := none }] false 1 = Except.ok [] ∧
    getProfessionalById [] 1 = none := by
  exact ⟨rfl, rfl⟩

/-- C6 (amended): in the part_000 implementation the delete of a professional
or a service only sets `active := false`; no row is removed, the record is
still returned by the point lookup (now inactive), and every record carrying
the deleted id is excluded from the active-only fetch-all listing. -/
theorem c6_soft_delete_api0 (db : List Professional) (sdb : List Service)
    (id sid : Nat) (p : Professional) (s : Service)
    (hp : getProfessionalById db id = some p) (hs : getServiceById sdb sid = some s) :
    ∃ db1 sdb1,
      Api0.deleteProfessional db false id = (true, db1) ∧
      Api0.deleteService sdb false sid = (true, sdb1) ∧
      db1.length = db.length ∧ sdb1.length = sdb.length ∧
      getProfessionalById db1 id = some { p with active := false } ∧
      getServiceById sdb1 sid = some { s with active := false } ∧
      (∃ res, Api0.fetchProfessionals db1 none = Except.ok res ∧
        ∀ r ∈ res, r.id ≠ id) ∧
      (∃ sres, Api0.fetchServices sdb1 none = Except.ok sres ∧
        ∀ r ∈ sres, r.id ≠ sid) := by
  refine ⟨db.map fun q => if q.id = id then { q with active := false } else q,
    sdb.map fun q => if q.id = sid then { q with active := false } else q,
    by simp [Api0.deleteProfessional], by simp [Api0.deleteService],
    by simp, by simp, ?_, ?_, ?_, ?_⟩
  · exact find_softDelete Professional.id (fun q => { q with active := false })
      (fun _ => rfl) db id p hp
  · exact find_softDelete Service.id (fun q => { q with active := false })
      (fun _ => rfl) sdb sid s hs
  · refine ⟨_, rfl, ?_⟩
    intro r hr hrid
    have hr2 := List.mem_filter.mp hr
    have := softDelete_inactive Professional.id Professional.active
      (fun q => { q with active := false }) (fun _ => rfl) db id r hr2.1 hrid
    rw [this] at hr2
    exact absurd hr2.2 (by simp)
  · refine ⟨_, rfl, ?_⟩
    intro r hr hrid
    have hr2 := List.mem_filter.mp hr
    have := softDelete_inactive Service.id Service.active
      (fun q => { q with active := false }) (fun _ => rfl) sdb sid r hr2.1 hrid
    rw [this] at hr2
    exact absurd hr2.2 (by simp)

/-- C6 witness: the amended theorem run on one-row professional and service
tables. -/
theorem c6_witness :
    ∃ db1 sdb1,
      Api0.deleteProfessional
        [{ id := 1, name := "ana", phone := none, bio := none, photo_url := none,
           active := true, user_id := none }] false 1 = (true, db1) ∧
      Api0.deleteService
        [{ id := 2, name := "cut", description := "", duration := 30, price := 50,
           active := true }] false 2 = (true, sdb1) ∧
      getProfessionalById db1 1 =
        some { id := 1, name := "ana", phone := none, bio := none, photo_url := none,
               active := false, user_id := none } ∧
      getServiceById sdb1 2 =
        some { id := 2, name := "cut", description := "", duration := 30, price := 50,
               active := false } := by
  obtain ⟨db1, sdb1, h1, h2, _, _, h5, h6, _, _⟩ :=
    c6_soft_delete_api0
      [{ id := 1, name := "ana", phone := none, bio := none, photo_url := none,
         active := true, user_id := none }]
      [{ id := 2, name := "cut", description := "", duration := 30, price := 50,
         active := true }]
      1 2 _ _ rfl rfl
  exact ⟨db1, sdb1, h1, h2, h5, h6⟩

/-- C7: for the point lookup `getUserByAuth`, a zero-row result is suppressed
into `none` (never an error), a genuine query failure with any other code is
re-thrown, and a one-row result is returned as `some`; the cases are
distinguished by the `PGRST116` code check. -/
theorem c7_getUserByAuth_zero_rows (db : List Api1.UserRow) (authId : Nat)
    (e : StoreErr) (u : Api1.UserRow) :
    (db.filter (fun r => r.auth_id == authId) = [] →
      Api1.getUserByAuth db none authId = Except.ok none) ∧
    (e.code ≠ "PGRST116" →
      Api1.getUserByAuth db (some e) authId = Except.error e) ∧
    (db.filter (fun r => r.auth_id == authId) = [u] →
      Api1.getUserByAuth db none authId = Except.ok (some u)) := by
  refine ⟨?_, ?_, ?_⟩
  · intro h
    simp [Api1.getUserByAuth, Api1.singleRowUser, h]
  · intro h
    simp [Api1.getUserByAuth, h]
  · intro h
    simp [Api1.getUserByAuth, Api1.singleRowUser, h]

/-- C7 witness: the theorem run on the empty users table (zero rows, and a
`NET` query failure). -/
theorem c7_witness :
    Api1.getUserByAuth ([] : List Api1.UserRow) none 7 = Except.ok none ∧
    Api1.getUserByAuth ([] : List Api1.UserRow) (some { code := "NET" }) 7 =
      Except.error { code := "NET" } := by
  have h := c7_getUserByAuth_zero_rows ([] : List Api1.UserRow) 7 { code := "NET" }
    { id := 0, name := "", email := "", role := "", auth_id := 0, tipo_usuario := "" }
  exact ⟨h.1 rfl, h.2.1 (by decide)⟩

/-- C8: `createProfessional` (part_000) defaults every absent optional field;
in particular an absent `active` becomes `true`, and the result carries the
created record's id. -/
theorem c8_createProfessional_defaults (db : List Professional) (newId : Nat)
    (input : ProfessionalInput) (hactive : input.active = none) :
    ∃ row : Professional,
      Api0.createProfessional db false newId input =
        ({ success := true, id := some newId }, db ++ [row]) ∧
      row.id = newId ∧ row.active = true ∧ row.name = input.name ∧
      (input.phone = none → row.phone = none) ∧
      (input.bio = none → row.bio = none) ∧
      (input.photo_url = none → row.photo_url = none) := by
  refine
    ⟨{ id := newId, name := input.name, phone := jsOrNull input.phone,
       bio := jsOrNull input.bio, photo_url := jsOrNull input.photo_url,
       active := input.active.getD true, user_id := jsOrNullNat input.user_id },
      by simp [Api0.createProfessional], rfl, by simp [hactive], rfl, ?_, ?_, ?_⟩
  · intro h; simp [jsOrNull, h]
  · intro h; simp [jsOrNull, h]
  · intro h; simp [jsOrNull, h]

/-- C8 witness: creating a professional from a name-only input on the empty
table yields an active record with the new id. -/
theorem c8_witness :
    ∃ row : Professional,
      Api0.createProfessional [] false 3
          { name := "ana", phone := none, bio := none, photo_url := none,
            active := none, user_id := none } =
        ({ success := true, id := some 3 }, [] ++ [row]) ∧
      row.id = 3 ∧ row.active = true := by
  obtain ⟨row, h1, h2, h3, _⟩ := c8_createProfessional_defaults [] 3
    { name := "ana", phone := none, bio := none, photo_url := none,
      active := none, user_id := none } rfl
  exact ⟨row, h1, h2, h3⟩

/-- C1: counterexample.  In the part_001 `createAppointment`, run on an
available slot with no store failure, the appointment insert happens before
the slot is set unavailable: the trace is insert-then-update, so the claim
"the slot's is_available is set to false before the appointment row is
inserted" is false for this implementation. -/
theorem c1_counterexample :
    (Api1.createAppointment
        { slots := [{ id := 1, professional_id := 2, start_time := 0, end_time := 1,
                      is_available := true }],
          appointments := [] }
        { insertFail := false, slotFail := false } 10 2 3 1 "ana" "555").2.2 =
      [StoreEvent.insertAppt 10 true, StoreEvent.updateSlot 1 false true] ∧
    insertAfterSlotOff 1
      (Api1.createAppointment
        { slots := [{ id := 1, professional_id := 2, start_time := 0, end_time := 1,
                      is_available := true }],
          appointments := [] }
        { insertFail := false, slotFail := false } 10 2 3 1 "ana" "555").2.2 false = false := by
  exact ⟨rfl, rfl⟩

/-- C1 (amended): in the part_000 slot-first `createAppointment`, every
appointment insert in the trace is preceded by the successful update that set
the slot unavailable; on full success the result carries the new id, the
inserted appointment is `confirmed` and references the slot, and the slot is
left unavailable; if the appointment insert fails and the compensating update
succeeds, the failure result is returned with the slot restored to
available. -/
theorem c1_slot_first_api0 (db : BookingDB) (f : Api0.CreateApptFail)
    (newId professionalId serviceId slotId : Nat) (clientName clientPhone : String)
    (slot : Slot) (_hmem : slot ∈ db.slots) (_hid : slot.id = slotId)
    (_hav : slot.is_available = true) :
    insertAfterSlotOff slotId
      (Api0.createAppointment db f newId professionalId serviceId slotId
        clientName clientPhone).2.2 false = true ∧
    (f.slotFail = false → f.insertFail = false →
      (Api0.createAppointment db f newId professionalId serviceId slotId
        clientName clientPhone).1 = { success := true, appointmentId := some newId } ∧
      ({ id := newId, professional_id := professionalId, service_id := serviceId,
         slot_id := slotId, client_name := clientName, client_phone := clientPhone,
         status := ApptStatus.confirmed } : Appointment) ∈
        (Api0.createAppointment db f newId professionalId serviceId slotId
          clientName clientPhone).2.1.appointments ∧
      (∀ s ∈ (Api0.createAppointment db f newId professionalId serviceId slotId
          clientName clientPhone).2.1.slots,
        s.id = slotId → s.is_available = false)) ∧
    (f.slotFail = false → f.insertFail = true → f.revertFail = false →
      (Api0.createAppointment db f newId professionalId serviceId slotId
        clientName clientPhone).1 = { success := false, appointmentId := none } ∧
      (∀ s ∈ (Api0.createAppointment db f newId professionalId serviceId slotId
          clientName clientPhone).2.1.slots,
        s.id = slotId → s.is_available = true)) := by
  obtain ⟨sf, insf, rf⟩ := f
  refine ⟨?_, ?_, ?_⟩
  · cases sf <;> cases insf <;> cases rf <;>
      simp [Api0.createAppointment, insertAfterSlotOff]
  · intro h1 h2
    subst h1; subst h2
    cases rf <;>
      refine ⟨rfl, by simp [Api0.createAppointment], ?_⟩ <;>
      · intro s hs hsid
        simp only [Api0.createAppointment] at hs
        exact setSlotAvail_avail db.slots slotId false s hs hsid
  · intro h1 h2 h3
    subst h1; subst h2; subst h3
    refine ⟨rfl, ?_⟩
    intro s hs hsid
    simp only [Api0.createAppointment] at hs
    exact setSlotAvail_avail _ slotId true s hs hsid

/-- C1 witness: the amended theorem run on a one-slot table, both on the
success path and on the failed-insert compensation path. -/
theorem c1_witness :
    insertAfterSlotOff 1
      (Api0.createAppointment
        { slots := [{ id := 1, professional_id := 2, start_time := 0, end_time := 1,
                      is_available := true }],
          appointments := [] }
        { slotFail := false, insertFail := true, revertFail := false }
        10 2 3 1 "ana" "555").2.2 false = true ∧
    (Api0.createAppointment
        { slots := [{ id := 1, professional_id := 2, start_time := 0, end_time := 1,
                      is_available := true }],
          appointments := [] }
        { slotFail := false, insertFail := true, revertFail := false }
        10 2 3 1 "ana" "555").1 = { success := false, appointmentId := none } := by
  have h := c1_slot_first_api0
    { slots := [{ id := 1, professional_id := 2, start_time := 0, end_time := 1,
                  is_available := true }],
      appointments := [] }
    { slotFail := false, insertFail := true, revertFail := false }
    10 2 3 1 "ana" "555"
    { id := 1, professional_id := 2, start_time := 0, end_time := 1,
      is_available := true }
    (by simp) rfl rfl
  exact ⟨h.1, (h.2.2 rfl rfl rfl).1⟩

/-- C2: counterexample.  The part_000 `updateAppointmentStatus` only writes
the status column: cancelling a confirmed appointment leaves its slot with
`is_available = false`, so the claim "sets is_available=true on the slot
referenced by that appointment's slot_id" is false for this
implementation. -/
theorem c2_counterexample :
    Api0.updateAppointmentStatus
        { slots := [{ id := 1, professional_id := 2, start_time := 0, end_time := 1,
                      is_available := false }],
          appointments := [{ id := 10, professional_id := 2, service_id := 3,
                             slot_id := 1, client_name := "ana", client_phone := "x",
                             status := ApptStatus.confirmed }] }
        false 10 ApptStatus.cancelled =
      (true,
        { slots := [{ id := 1, professional_id := 2, start_time := 0, end_time := 1,
                      is_available := false }],
          appointments := [{ id := 10, professional_id := 2, service_id := 3,
                             slot_id := 1, client_name := "ana", client_phone := "x",
                             status := ApptStatus.cancelled }] }) := by
  rfl

/-- C2 (amended): in the part_001 `updateAppointmentStatus`, cancelling an
appointment whose prior status is not `cancelled` sets its slot available
again; cancelling an already-cancelled appointment succeeds without touching
any slot; transitioning to `completed` touches no slot.  The part_000
implementation never modifies slots at all. -/
theorem c2_update_status (db : BookingDB) (id : Nat) (appt : Appointment)
    (hsingle : db.appointments.filter (fun a => a.id == id) = [appt]) :
    (appt.status ≠ ApptStatus.cancelled →
      Api1.updateAppointmentStatus db
          { fetchFail := false, updateFail := false, slotFail := false }
          id ApptStatus.cancelled =
        Except.ok
          { slots := setSlotAvail db.slots appt.slot_id true,
            appointments := db.appointments.map fun a =>
              if a.id = id then { a with status := ApptStatus.cancelled } else a } ∧
      (∀ s ∈ setSlotAvail db.slots appt.slot_id true,
        s.id = appt.slot_id → s.is_available = true)) ∧
    (appt.status = ApptStatus.cancelled →
      Api1.updateAppointmentStatus db
          { fetchFail := false, updateFail := false, slotFail := false }
          id ApptStatus.cancelled =
        Except.ok
          { slots := db.slots,
            appointments := db.appointments.map fun a =>
              if a.id = id then { a with status := ApptStatus.cancelled } else a }) ∧
    (Api1.updateAppointmentStatus db
        { fetchFail := false, updateFail := false, slotFail := false }
        id ApptStatus.completed =
      Except.ok
        { slots := db.slots,
          appointments := db.appointments.map fun a =>
            if a.id = id then { a with status := ApptStatus.completed } else a }) ∧
    (∀ (updateFail : Bool) (st : ApptStatus),
      ((Api0.updateAppointmentStatus db updateFail id st).2).slots = db.slots) := by
  refine ⟨?_, ?_, ?_, ?_⟩
  · intro h
    constructor
    · simp [Api1.updateAppointmentStatus, hsingle, singleRowAppt, h]
    · exact setSlotAvail_avail db.slots appt.slot_id true
  · intro h
    simp [Api1.updateAppointmentStatus, hsingle, singleRowAppt, h]
  · simp [Api1.updateAppointmentStatus, hsingle, singleRowAppt]
  · intro updateFail st
    cases updateFail <;> simp [Api0.updateAppointmentStatus]

/-- C2 witness: the amended theorem run on a one-appointment table, both on
the first cancellation and on a repeated one. -/
theorem c2_witness :
    Api1.updateAppointmentStatus
        { slots := [{ id := 1, professional_id := 2, start_time := 0, end_time := 1,
                      is_available := false }],
          appointments := [{ id := 10, professional_id := 2, service_id := 3,
                             slot_id := 1, client_name := "ana", client_phone := "x",
                             status := ApptStatus.confirmed }] }
        { fetchFail := false, updateFail := false, slotFail := false }
        10 ApptStatus.cancelled =
      Except.ok
        { slots := [{ id := 1, professional_id := 2, start_time := 0, end_time := 1,
                      is_available := true }],
          appointments := [{ id := 10, professional_id := 2, service_id := 3,
                             slot_id := 1, client_name := "ana", client_phone := "x",
                             status := ApptStatus.cancelled }] } ∧
    Api1.updateAppointmentStatus
        { slots := [{ id := 1, professional_id := 2, start_time := 0, end_time := 1,
                      is_available := false }],
          appointments := [{ id := 10, professional_id := 2, service_id := 3,
                             slot_id := 1, client_name := "ana", client_phone := "x",
                             status := ApptStatus.cancelled }] }
        { fetchFail := false, updateFail := false, slotFail := false }
        10 ApptStatus.cancelled =
      Except.ok
        { slots := [{ id := 1, professional_id := 2, start_time := 0, end_time := 1,
                      is_available := false }],
          appointments := [{ id := 10, professional_id := 2, service_id := 3,
                             slot_id := 1, client_name := "ana", client_phone := "x",
                             status := ApptStatus.cancelled }] } := by
  constructor
  · have h := c2_update_status
      { slots := [{ id := 1, professional_id := 2, start_time := 0, end_time := 1,
                    is_available := false }],
        appointments := [{ id := 10, professional_id := 2, service_id := 3,
                           slot_id := 1, client_name := "ana", client_phone := "x",
                           status := ApptStatus.confirmed }] }
      10
      { id := 10, professional_id := 2, service_id := 3, slot_id := 1,
        client_name := "ana", client_phone := "x", status := ApptStatus.confirmed }
      (by rfl)
    have h2 := (h.1 (by simp)).1
    rw [h2]
    rfl
  · have h := c2_update_status
      { slots := [{ id := 1, professional_id := 2, start_time := 0, end_time := 1,
                    is_available := false }],
        appointments := [{ id := 10, professional_id := 2, service_id := 3,
                           slot_id := 1, client_name := "ana", client_phone := "x",
                           status := ApptStatus.cancelled }] }
      10
      { id := 10, professional_id := 2, service_id := 3, slot_id := 1,
        client_name := "ana", client_phone := "x", status := ApptStatus.cancelled }
      (by rfl)
    have h2 := h.2.1 rfl
    rw [h2]
    rfl

/-- C9: the part_001 insert-first `createAppointment` converts every failure
path into `{ success := false }` with no appointment id; when the slot update
fails after a successful insert, the inserted appointment row stays in the
table and the slots are untouched; when the insert itself fails the store is
unchanged. -/
theorem c9_insert_first_api1 (db : BookingDB) (f : Api1.CreateApptFail)
    (newId professionalId serviceId slotId : Nat) (clientName clientPhone : String) :
    ((f.insertFail = true ∨ f.slotFail = true) →
      (Api1.createAppointment db f newId professionalId serviceId slotId
        clientName clientPhone).1 = { success := false, appointmentId := none }) ∧
    (f.insertFail = false → f.slotFail = true →
      ({ id := newId, professional_id := professionalId, service_id := serviceId,
         slot_id := slotId, client_name := clientName, client_phone := clientPhone,
         status := ApptStatus.confirmed } : Appointment) ∈
        (Api1.createAppointment db f newId professionalId serviceId slotId
          clientName clientPhone).2.1.appointments ∧
      (Api1.createAppointment db f newId professionalId serviceId slotId
        clientName clientPhone).2.1.slots = db.slots) ∧
    (f.insertFail = true →
      (Api1.createAppointment db f newId professionalId serviceId slotId
        clientName clientPhone).2.1 = db) := by
  obtain ⟨insf, sf⟩ := f
  refine ⟨?_, ?_, ?_⟩
  · intro h
    cases insf <;> cases sf <;> simp_all [Api1.createAppointment]
  · intro h1 h2
    subst h1; subst h2
    exact ⟨by simp [Api1.createAppointment], by simp [Api1.createAppointment]⟩
  · intro h1
    subst h1
    simp [Api1.createAppointment]

/-- C9 witness: a concrete run in which the slot update fails after the
insert succeeded: failure is reported, yet the appointment row is kept. -/
theorem c9_witness :
    (Api1.createAppointment
        { slots := [{ id := 1, professional_id := 2, start_time := 0, end_time := 1,
                      is_available := true }],
          appointments := [] }
        { insertFail := false, slotFail := true } 10 2 3 1 "ana" "555").1 =
      { success := false, appointmentId := none } ∧
    ({ id := 10, professional_id := 2, service_id := 3, slot_id := 1,
       client_name := "ana", client_phone := "555",
       status := ApptStatus.confirmed } : Appointment) ∈
      (Api1.createAppointment
        { slots := [{ id := 1, professional_id := 2, start_time := 0, end_time := 1,
                      is_available := true }],
          appointments := [] }
        { insertFail := false, slotFail := true } 10 2 3 1 "ana" "555").2.1.appointments := by
  have h := c9_insert_first_api1
    { slots := [{ id := 1, professional_id := 2, start_time := 0, end_time := 1,
                  is_available := true }],
      appointments := [] }
    { insertFail := false, slotFail := true } 10 2 3 1 "ana" "555"
  exact ⟨h.1 (Or.inr rfl), (h.2.1 rfl rfl).1⟩

/-- C10: `createWebhooks`, `createCompanies` and `createUsers` filter their
inputs to the rows carrying the required truthy fields and throw whenever the
filtered list is empty — also for a non-empty input list — and otherwise
insert exactly the filtered rows. -/
theorem c10_batch_creates_reject_all_invalid (dbw webhooks : List Api1.WebhookInput)
    (dbc companies : List Api1.CompanyInput) (dbu users : List Api1.UserInput)
    (fw fc fu : Bool) :
    (webhooks.filter (fun w => Api1.truthyStr w.url) = [] →
      Api1.createWebhooks dbw fw webhooks =
        Except.error { code := "No valid webhooks to create" }) ∧
    (companies.filter (fun c => Api1.truthyStr c.name && Api1.truthyStr c.slug) = [] →
      Api1.createCompanies dbc fc companies =
        Except.error { code := "No valid companies to create" }) ∧
    (users.filter (fun u =>
        Api1.truthyStr u.email && Api1.truthyStr u.name && Api1.truthyStr u.role) = [] →
      Api1.createUsers dbu fu users =
        Except.error { code := "No valid users to create" }) ∧
    (webhooks.filter (fun w => Api1.truthyStr w.url) ≠ [] → fw = false →
      Api1.createWebhooks dbw fw webhooks =
        Except.ok (webhooks.filter (fun w => Api1.truthyStr w.url),
          dbw ++ webhooks.filter (fun w => Api1.truthyStr w.url))) := by
  refine ⟨?_, ?_, ?_, ?_⟩
  · intro h
    simp [Api1.createWebhooks, h]
  · intro h
    simp [Api1.createCompanies, h]
  · intro h
    simp [Api1.createUsers, h]
  · intro h hf
    subst hf
    simp [Api1.createWebhooks, h]

/-- C10 witness: non-empty batches in which every row misses a required field
(absent url; company without slug; user without role) are all rejected. -/
theorem c10_witness :
    Api1.createWebhooks [] false [{ url := none, event_type := some "e" }] =
      Except.error { code := "No valid webhooks to create" } ∧
    Api1.createCompanies [] false [{ name := some "acme", slug := none }] =
      Except.error { code := "No valid companies to create" } ∧
    Api1.createUsers [] false [{ email := some "a@b", name := some "ana", role := none }] =
      Except.error { code := "No valid users to create" } := by
  have h := c10_batch_creates_reject_all_invalid
    [] [{ url := none, event_type := some "e" }]
    [] [{ name := some "acme", slug := none }]
    [] [{ email := some "a@b", name := some "ana", role := none }]
    false false false
  exact ⟨h.1 (by rfl), h.2.1 (by rfl), h.2.2.1 (by rfl)⟩

/-- Booleans commute across a four-way conjunction; used to align the two
filter orders of the two `fetchAvailableSlots` implementations. -/
theorem bool_reorder (b1 b2 b3 b4 : Bool) :
    (b1 && b3 && b4 && b2) = (b1 && b2 && b3 && b4) := by
  cases b1 <;> cases b2 <;> cases b3 <;> cases b4 <;> rfl

/-- C4: both `fetchAvailableSlots` implementations return the same list:
exactly the available slots of the professional whose `start_time` lies in
the half-open window from midnight of the requested day to midnight of the
next day, sorted ascending by `start_time`.  (On integer-millisecond
timestamps the part_001 closed bound `23:59:59.999` coincides with the
part_000 strict next-midnight bound.) -/
theorem c4_fetchAvailableSlots_window (db : List Slot) (professionalId date : Nat) :
    ∃ res,
      Api0.fetchAvailableSlots db false professionalId date = Except.ok res ∧
      Api1.fetchAvailableSlots db false professionalId date = Except.ok res ∧
      List.Sorted slotLe res ∧
      res.Perm (db.filter fun s =>
        s.professional_id == professionalId && s.is_available &&
          decide (dayStart date ≤ s.start_time) &&
          decide (s.start_time < dayStart date + msPerDay)) ∧
      (∀ s, s ∈ res ↔ (s ∈ db ∧ s.professional_id = professionalId ∧
        s.is_available = true ∧ dayStart date ≤ s.start_time ∧
        s.start_time < dayStart date + msPerDay)) := by
  have hfeq : (db.filter fun s =>
      s.professional_id == professionalId && decide (dayStart date ≤ s.start_time) &&
        decide (s.start_time ≤ dayStart date + (msPerDay - 1)) && s.is_available) =
      (db.filter fun s =>
        s.professional_id == professionalId && s.is_available &&
          decide (dayStart date ≤ s.start_time) &&
          decide (s.start_time < dayStart date + msPerDay)) := by
    apply List.filter_congr
    intro a _
    have hdec : decide (a.start_time ≤ dayStart date + (msPerDay - 1)) =
        decide (a.start_time < dayStart date + msPerDay) := by
      rw [decide_eq_decide]
      simp only [msPerDay]
      omega
    rw [hdec, bool_reorder]
  refine ⟨orderByStartTime (db.filter fun s =>
      s.professional_id == professionalId && s.is_available &&
        decide (dayStart date ≤ s.start_time) &&
        decide (s.start_time < dayStart date + msPerDay)), rfl, ?_, ?_, ?_, ?_⟩
  · have h1 : Api1.fetchAvailableSlots db false professionalId date =
        Except.ok (orderByStartTime (db.filter fun s =>
          s.professional_id == professionalId && decide (dayStart date ≤ s.start_time) &&
            decide (s.start_time ≤ dayStart date + (msPerDay - 1)) && s.is_available)) := rfl
    rw [h1, hfeq]
  · exact List.sorted_insertionSort slotLe _
  · exact List.perm_insertionSort slotLe _
  · intro s
    simp only [orderByStartTime]
    rw [List.Perm.mem_iff (List.perm_insertionSort slotLe _)]
    simp [List.mem_filter, Bool.and_eq_true, decide_eq_true_eq, and_assoc]

/-- Unfolding of `claimCalendarDays` on a non-empty day range. -/
theorem claimCalendarDays_cons (d1 d2 : Nat) (h : d1 ≤ d2) :
    claimCalendarDays d1 d2 = d1 :: claimCalendarDays (d1 + 1) d2 := by
  rw [claimCalendarDays, if_pos h]

/-- Unfolding of `claimCalendarDays` on an empty day range. -/
theorem claimCalendarDays_nil (d1 d2 : Nat) (h : ¬ d1 ≤ d2) :
    claimCalendarDays d1 d2 = [] := by
  rw [claimCalendarDays, if_neg h]

/-- One iteration of the `while (currentDate <= endDate)` loop. -/
theorem generateSlots_step (professionalId currentDate endDate : Nat)
    (selectedDays : List Nat) (timeRanges : List Api1.TimeRange)
    (h : currentDate ≤ endDate) :
    Api1.generateSlots professionalId currentDate endDate selectedDays timeRanges =
      (if jsGetDay currentDate ∈ selectedDays then
          Api1.slotsForDay professionalId currentDate timeRanges
        else []) ++
        Api1.generateSlots professionalId (currentDate + msPerDay) endDate
          selectedDays timeRanges := by
  conv_lhs => rw [Api1.generateSlots]
  rw [if_pos h]

/-- Termination of the `while` loop once `currentDate` passes `endDate`. -/
theorem generateSlots_stop (professionalId currentDate endDate : Nat)
    (selectedDays : List Nat) (timeRanges : List Api1.TimeRange)
    (h : ¬ currentDate ≤ endDate) :
    Api1.generateSlots professionalId currentDate endDate selectedDays timeRanges = [] := by
  conv_lhs => rw [Api1.generateSlots]
  rw [if_neg h]

/-- Advancing a timestamp by one day advances its calendar-day index by
one. -/
theorem dayIndex_add_day (t : Nat) : dayIndex (t + msPerDay) = dayIndex t + 1 := by
  unfold dayIndex msPerDay
  omega

/-- Advancing a timestamp by one day keeps its time of day. -/
theorem mod_add_day (t : Nat) : (t + msPerDay) % msPerDay = t % msPerDay := by
  unfold msPerDay
  omega

/-- A timestamp on an earlier-or-equal day with an earlier-or-equal time of
day is earlier-or-equal. -/
theorem le_of_dayIndex_le (a b : Nat) (hd : dayIndex a ≤ dayIndex b)
    (hm : a % msPerDay ≤ b % msPerDay) : a ≤ b := by
  unfold dayIndex msPerDay at *
  omega

/-- Advancing past a timestamp on the same calendar day leaves the bound. -/
theorem not_le_next_day (a b : Nat) (hd : dayIndex a = dayIndex b) :
    ¬ (a + msPerDay ≤ b) := by
  unfold dayIndex msPerDay at *
  omega

/-- The rows the loop body emits for a day are the rows the claim expects for
that day's calendar index. -/
theorem slotsForDay_eq_claim (professionalId currentDate : Nat)
    (timeRanges : List Api1.TimeRange) :
    Api1.slotsForDay professionalId currentDate timeRanges =
      claimRowsForDay professionalId (dayIndex currentDate) timeRanges := by
  unfold Api1.slotsForDay claimRowsForDay setHMS dayStart
  rfl

/-- Unfolding of the claim-side row set on a non-empty day range. -/
theorem claimBulkRows_cons (professionalId startDate endDate : Nat)
    (selectedDays : List Nat) (timeRanges : List Api1.TimeRange)
    (h : dayIndex startDate ≤ dayIndex endDate) :
    claimBulkRows professionalId startDate endDate selectedDays timeRanges =
      (if (dayIndex startDate + 4) % 7 ∈ selectedDays then
          claimRowsForDay professionalId (dayIndex startDate) timeRanges
        else []) ++
        claimBulkRows professionalId (startDate + msPerDay) endDate
          selectedDays timeRanges := by
  unfold claimBulkRows
  rw [dayIndex_add_day, claimCalendarDays_cons _ _ h]
  simp

/-- The loop of `createAvailableSlotsBulk` produces exactly the claim's row
set whenever the start date's time of day does not exceed the end date's
(in particular for midnight-to-midnight ranges). -/
theorem generateSlots_eq_claimBulkRows (professionalId : Nat)
    (selectedDays : List Nat) (timeRanges : List Api1.TimeRange) :
    ∀ (n startDate endDate : Nat), dayIndex endDate - dayIndex startDate = n →
      startDate % msPerDay ≤ endDate % msPerDay →
      dayIndex startDate ≤ dayIndex endDate →
      Api1.generateSlots professionalId startDate endDate selectedDays timeRanges =
        claimBulkRows professionalId startDate endDate selectedDays timeRanges := by
  intro n
  induction n with
  | zero =>
    intro startDate endDate h0 hmod hday
    have hle : startDate ≤ endDate := le_of_dayIndex_le _ _ hday hmod
    have hde : dayIndex startDate = dayIndex endDate := by omega
    have hstop : ¬ (startDate + msPerDay ≤ endDate) := not_le_next_day _ _ hde
    have hnil : claimBulkRows professionalId (startDate + msPerDay) endDate
        selectedDays timeRanges = [] := by
      unfold claimBulkRows
      rw [dayIndex_add_day, claimCalendarDays_nil]
      · simp
      · omega
    rw [generateSlots_step _ _ _ _ _ hle, claimBulkRows_cons _ _ _ _ _ hday,
      generateSlots_stop _ _ _ _ _ hstop, hnil, slotsForDay_eq_claim]
    simp [jsGetDay]
  | succ n ih =>
    intro startDate endDate h0 hmod hday
    have hlt : dayIndex startDate < dayIndex endDate := by omega
    have hle : startDate ≤ endDate := le_of_dayIndex_le _ _ (Nat.le_of_lt hlt) hmod
    have hrec := ih (startDate + msPerDay) endDate
      (by rw [dayIndex_add_day]; omega)
      (by rw [mod_add_day]; exact hmod)
      (by rw [dayIndex_add_day]; omega)
    rw [generateSlots_step _ _ _ _ _ hle, claimBulkRows_cons _ _ _ _ _ hday,
      slotsForDay_eq_claim, hrec]
    simp [jsGetDay]

/-- C3 (amended): whenever the start date's time of day does not exceed the
end date's (in particular for midnight dates), `createAvailableSlotsBulk`
emits exactly one row per calendar day in `[startDate, endDate]` inclusive
whose weekday is selected, per time range, with the tuple's hours and minutes
applied to the day and `is_available = true`, and returns the number of rows
inserted, with `count 0` and no error when the generated set is empty; when
the start lies after the end it returns `count 0` as well.  (When the start
time of day exceeds the end's, the final calendar day is skipped — see the
counterexample.) -/
theorem c3_bulk_grid (db : List Api1.SlotRow) (professionalId startDate endDate : Nat)
    (selectedDays : List Nat) (timeRanges : List Api1.TimeRange) :
    (startDate % msPerDay ≤ endDate % msPerDay → dayIndex startDate ≤ dayIndex endDate →
      Api1.generateSlots professionalId startDate endDate selectedDays timeRanges =
        claimBulkRows professionalId startDate endDate selectedDays timeRanges ∧
      Api1.createAvailableSlotsBulk db false professionalId startDate endDate
          selectedDays timeRanges =
        Except.ok
          ({ count := (claimBulkRows professionalId startDate endDate
              selectedDays timeRanges).length },
            db ++ claimBulkRows professionalId startDate endDate selectedDays timeRanges)) ∧
    (¬ startDate ≤ endDate →
      Api1.createAvailableSlotsBulk db false professionalId startDate endDate
          selectedDays timeRanges = Except.ok ({ count := 0 }, db)) := by
  constructor
  · intro hmod hday
    have heq := generateSlots_eq_claimBulkRows professionalId selectedDays timeRanges
      (dayIndex endDate - dayIndex startDate) startDate endDate rfl hmod hday
    refine ⟨heq, ?_⟩
    unfold Api1.createAvailableSlotsBulk
    rw [heq]
    by_cases hlen : (claimBulkRows professionalId startDate endDate
        selectedDays timeRanges).length = 0
    · have hemp := List.length_eq_zero.mp hlen
      simp [hemp]
    · simp [hlen]
  · intro h
    unfold Api1.createAvailableSlotsBulk
    rw [generateSlots_stop _ _ _ _ _ h]
    simp

/-- C3: counterexample.  With `startDate` = day 0 at 10:00 and `endDate` =
day 1 at 09:00, day 1 lies in `[startDate, endDate]` inclusive as a calendar
day (and is a Friday, weekday 5), so the claim demands one slot row for the
9:00-10:00 range; but the loop steps in 24-hour increments from 10:00, so its
second iteration (day 1 at 10:00) already exceeds `endDate` and the code
emits no row at all and returns count 0. -/
theorem c3_counterexample :
    Api1.generateSlots 7 36000000 118800000 [5]
        [{ startHour := 9, startMinute := 0, endHour := 10, endMinute := 0 }] = [] ∧
    claimBulkRows 7 36000000 118800000 [5]
        [{ startHour := 9, startMinute := 0, endHour := 10, endMinute := 0 }] =
      [{ professional_id := 7, start_time := 118800000, end_time := 122400000,
         is_available := true }] ∧
    Api1.createAvailableSlotsBulk [] false 7 36000000 118800000 [5]
        [{ startHour := 9, startMinute := 0, endHour := 10, endMinute := 0 }] =
      Except.ok ({ count := 0 }, []) := by
  have h1 : Api1.generateSlots 7 36000000 118800000 [5]
      [{ startHour := 9, startMinute := 0, endHour := 10, endMinute := 0 }] = [] := by
    rw [generateSlots_step _ _ _ _ _ (by norm_num)]
    rw [generateSlots_stop _ _ _ _ _ (by norm_num [msPerDay])]
    norm_num [jsGetDay, dayIndex, msPerDay]
  refine ⟨h1, ?_, ?_⟩
  · rw [claimBulkRows]
    norm_num [dayIndex, msPerDay]
    rw [claimCalendarDays_cons 0 1 (by norm_num), claimCalendarDays_cons 1 1 (by norm_num),
      claimCalendarDays_nil 2 1 (by norm_num)]
    norm_num [claimRowsForDay, msPerDay, msPerHour, msPerMinute]
  · rw [Api1.createAvailableSlotsBulk]
    rw [h1]
    simp

/-- C3 witness: the amended theorem run on the spec's own test vector, a
7-day midnight-to-midnight range (days 4..10 of the epoch, Monday .. Sunday)
with weekdays {1, 3} (Monday and Wednesday) and the single 09:00-10:00 range:
exactly two rows are produced. -/
theorem c3_witness :
    Api1.createAvailableSlotsBulk [] false 7 (4 * msPerDay) (10 * msPerDay) [1, 3]
        [{ startHour := 9, startMinute := 0, endHour := 10, endMinute := 0 }] =
      Except.ok ({ count := 2 },
        [{ professional_id := 7, start_time := 378000000, end_time := 381600000,
           is_available := true },
         { professional_id := 7, start_time := 550800000, end_time := 554400000,
           is_available := true }]) := by
  have h := (c3_bulk_grid [] 7 (4 * msPerDay) (10 * msPerDay) [1, 3]
      [{ startHour := 9, startMinute := 0, endHour := 10, endMinute := 0 }]).1
    (by norm_num [msPerDay]) (by norm_num [dayIndex, msPerDay])
  have hrows : claimBulkRows 7 (4 * msPerDay) (10 * msPerDay) [1, 3]
      [{ startHour := 9, startMinute := 0, endHour := 10, endMinute := 0 }] =
      [{ professional_id := 7, start_time := 378000000, end_time := 381600000,
         is_available := true },
       { professional_id := 7, start_time := 550800000, end_time := 554400000,
         is_available := true }] := by
    rw [claimBulkRows]
    norm_num [dayIndex, msPerDay]
    rw [claimCalendarDays_cons 4 10 (by norm_num), claimCalendarDays_cons 5 10 (by norm_num),
      claimCalendarDays_cons 6 10 (by norm_num), claimCalendarDays_cons 7 10 (by norm_num),
      claimCalendarDays_cons 8 10 (by norm_num), claimCalendarDays_cons 9 10 (by norm_num),
      claimCalendarDays_cons 10 10 (by norm_num), claimCalendarDays_nil 11 10 (by norm_num)]
    norm_num [claimRowsForDay, msPerDay, msPerHour, msPerMinute]
  rw [h.2, hrows]
  rfl
